import Mathlib

/-!
Verification of the Claude Code on AWS onboarding CLI
(`src/claude_code_og/commands/client_app.py`,
`src/claude-code-og/commands/admin_app.py`, `src/claude_code_og/cli.py`).

The provider (boto3 Bedrock client) is modelled as explicit inputs: the
top-level listing call outcome is an `Except ClientErr ListResponse`, and the
per-resource tag fetch is a function `String → Except ClientErr (List Tag)`.
Console output that matters to the claims (error notices) is modelled as a
list of message strings; the rest of the rich rendering is presentation and
is not modelled.  Python `dict` values are modelled as association lists in
insertion order with unique keys (`dictOfPairs` mirrors dict construction:
first occurrence keeps its position, a repeated key overwrites the value).
-/

/-- A `botocore.exceptions.ClientError`, identified by its message. -/
structure ClientErr where
  msg : String
deriving DecidableEq, Repr

/-- The fields of an entry of `inferenceProfileSummaries` that the code reads. -/
structure ProfileSummary where
  inferenceProfileId : String
  inferenceProfileName : String
  inferenceProfileArn : String
deriving DecidableEq, Repr

/-- One page of a `list_inference_profiles` response. The code never reads
`nextToken` and never issues a continuation call. -/
structure ListResponse where
  inferenceProfileSummaries : List ProfileSummary
  nextToken : Option String
deriving DecidableEq, Repr

/-- Model of `profile_info`: the summary copy with the fetched tag dict
attached under the tags key. -/
structure AppProfile where
  summary : ProfileSummary
  tags : List (String × String)
deriving DecidableEq, Repr

/-- Result of a discovery function: the returned list plus the error notices
printed on the console. -/
structure ListOutcome where
  profiles : List AppProfile
  errors : List String
deriving DecidableEq, Repr

/-- Python dict insertion: an existing key keeps its position and gets the new
value; a new key is appended. -/
def dictInsert (d : List (String × String)) (k v : String) : List (String × String) :=
  if d.any (fun p => p.1 = k) then
    d.map (fun p => if p.1 = k then (k, v) else p)
  else
    d ++ [(k, v)]

/-- Python dict construction from a sequence of key/value pairs
(the tag-list dict comprehension and the `json.loads` object semantics:
last value for a repeated key wins, first position is kept). -/
def dictOfPairs (ps : List (String × String)) : List (String × String) :=
  ps.foldl (fun d p => dictInsert d p.1 p.2) []

/-- Model of dict lookup: subscript access and the `in` membership test. -/
def dictLookup (d : List (String × String)) (k : String) : Option String :=
  match d with
  | [] => none
  | p :: rest => if p.1 = k then some p.2 else dictLookup rest k

/-- The matching loop of `list_application_inference_profiles`
(client_app.py lines 54-59, admin_app.py lines 49-54): `match` stays true iff
every filter key is present in `profile_tags` with the filter value. -/
def matchesTagFilters (tag_filters : List (String × String))
    (profile_tags : List (String × String)) : Bool :=
  tag_filters.all (fun kv => decide (dictLookup profile_tags kv.1 = some kv.2))

/-- The body of the `for profile_summary in ...` loop: fetch the tags of each
summary (one `list_tags_for_resource` call per profile), keep the matching
ones.  A `ClientError` raised by any per-item fetch propagates out of the
loop (the single try/except surrounds the whole loop). -/
def listAppLoop (fetchTags : String → Except ClientErr (List (String × String)))
    (tag_filters : List (String × String)) :
    List ProfileSummary → Except ClientErr (List AppProfile)
  | [] => .ok []
  | s :: rest =>
    match fetchTags s.inferenceProfileArn with
    | .error e => .error e
    | .ok raw =>
      let profile_tags := dictOfPairs raw
      match listAppLoop fetchTags tag_filters rest with
      | .error e => .error e
      | .ok others =>
        if matchesTagFilters tag_filters profile_tags then
          .ok ({ summary := s, tags := profile_tags } :: others)
        else
          .ok others

/-- Function `list_application_inference_profiles` (client_app.py lines 28-70 and,
identically but for the request parameters, admin_app.py lines 23-65): one
listing call, then the per-profile tag-fetch loop; any `ClientError` reaching
the `except` prints a notice and yields `[]`. -/
def list_application_inference_profiles
    (listResult : Except ClientErr ListResponse)
    (fetchTags : String → Except ClientErr (List (String × String)))
    (tag_filters : List (String × String)) : ListOutcome :=
  match (match listResult with
         | .error e => .error e
         | .ok response =>
           listAppLoop fetchTags tag_filters response.inferenceProfileSummaries :
          Except ClientErr (List AppProfile)) with
  | .ok ps => { profiles := ps, errors := [] }
  | .error e =>
    { profiles := []
      errors := ["Error listing application inference profiles: " ++ e.msg] }

theorem dictLookup_mem {d : List (String × String)} {k v : String}
    (h : dictLookup d k = some v) : (k, v) ∈ d := by
  induction d with
  | nil => simp [dictLookup] at h
  | cons p rest ih =>
    by_cases hk : p.1 = k
    · simp [dictLookup, hk] at h
      cases p
      simp_all
    · simp [dictLookup, hk] at h
      exact .tail _ (ih h)

theorem matchesTagFilters_iff (tag_filters profile_tags : List (String × String)) :
    matchesTagFilters tag_filters profile_tags = true ↔
      ∀ kv ∈ tag_filters, dictLookup profile_tags kv.1 = some kv.2 := by
  simp [matchesTagFilters]

/-- Model of the Python str.lower call on an identifier: per-character
lowering. -/
def toLowerStr (s : String) : String :=
  String.mk (s.data.map Char.toLower)

/-- Python `needle in haystack` on strings: substring containment. -/
def containsSub (needle haystack : String) : Bool :=
  decide (needle.data <:+: haystack.data)

/-- The fixed exclusion list of admin_app.py line 87. -/
def legacyMarkers : List String :=
  ["3-5", "claude-3-haiku", "claude-3-sonnet", "claude-3-opus"]

/-- The filter predicate of `list_claude_inference_profiles`
(admin_app.py lines 83-88). -/
def isClaudeProfile (p : ProfileSummary) : Bool :=
  containsSub "claude" (toLowerStr p.inferenceProfileId) &&
    legacyMarkers.all (fun m => ! containsSub m (toLowerStr p.inferenceProfileId))

/-- Model of the sorted call keyed on the profile identifier: the comparison
used by the stable ascending sort. -/
def profileIdLE (a b : ProfileSummary) : Bool :=
  decide (a.inferenceProfileId ≤ b.inferenceProfileId)

/-- Result of `list_claude_inference_profiles`: summaries plus error notices. -/
structure ClaudeListOutcome where
  profiles : List ProfileSummary
  errors : List String
deriving DecidableEq, Repr

/-- Function `list_claude_inference_profiles` (admin_app.py lines 68-96): one
`SYSTEM_DEFINED` listing call, filter to the Claude family minus the legacy
markers, sort ascending by id; a `ClientError` prints a notice and yields `[]`. -/
def list_claude_inference_profiles
    (listResult : Except ClientErr ListResponse) : ClaudeListOutcome :=
  match listResult with
  | .ok response =>
    { profiles :=
        (response.inferenceProfileSummaries.filter isClaudeProfile).mergeSort profileIdLE
      errors := [] }
  | .error e =>
    { profiles := [], errors := ["Error listing inference profiles: " ++ e.msg] }

/-- Outcome of the numeric-selection step shared by
`prompt_for_inference_profile` (admin_app.py lines 137-146) and the selection
block of `client_setup` (client_app.py lines 234-244). -/
inductive SelectionResult (α : Type) where
  | selected (a : α)
  | invalidChoice
  | invalidInput
deriving DecidableEq, Repr

/-- The selection step: `choice = int(Prompt.ask(...))` (a `none` models the
`ValueError` of a non-numeric input), then `if 1 <= choice <= len(profiles)`
selects index `choice - 1`, else the error branch. -/
def select_from {α : Type} (profiles : List α) (choice : Option Int) :
    SelectionResult α :=
  match choice with
  | none => .invalidInput
  | some c =>
    if h : 1 ≤ c ∧ c ≤ (profiles.length : Int) then
      .selected (profiles.get ⟨(c - 1).toNat, by omega⟩)
    else
      .invalidChoice

/-- The left curly-brace character. -/
def lbrace : Char := Char.ofNat 123

/-- The right curly-brace character. -/
def rbrace : Char := Char.ofNat 125

/-- The single-quote character. -/
def squote : Char := Char.ofNat 39

/-- The double-quote character. -/
def dquote : Char := Char.ofNat 34

/-- Drop leading whitespace characters. -/
def skipWs : List Char → List Char
  | [] => []
  | c :: rest =>
    if c = ' ' ∨ c = '\t' ∨ c = '\n' ∨ c = '\r' then skipWs rest else c :: rest

/-- Scan the body of a quoted string up to the closing quote `q`
(escape sequences are outside the modelled fragment). -/
def scanStr (q : Char) : List Char → Option (List Char × List Char)
  | [] => none
  | c :: rest =>
    if c = q then some ([], rest)
    else
      match scanStr q rest with
      | some (s, rem) => some (c :: s, rem)
      | none => none

/-- Parse one quoted string whose opening quote is in `quotes`. -/
def parseQuoted (quotes : List Char) : List Char → Option (String × List Char)
  | [] => none
  | c :: rest =>
    if c ∈ quotes then (scanStr c rest).map (fun p => (String.mk p.1, p.2))
    else none

/-- Parse one `key : value` pair of quoted strings. -/
def parsePair (quotes : List Char) (cs : List Char) :
    Option ((String × String) × List Char) := do
  let kc ← parseQuoted quotes (skipWs cs)
  match skipWs kc.2 with
  | c :: cs2 =>
    if c = ':' then do
      let vc ← parseQuoted quotes (skipWs cs2)
      some ((kc.1, vc.1), vc.2)
    else none
  | [] => none

/-- Parse the remaining `, key : value` items up to the closing brace
(fuel-driven recursion; the fuel is an upper bound on the input length). -/
def parseItems (quotes : List Char) : Nat → List Char →
    Option (List (String × String) × List Char)
  | 0, _ => none
  | fuel + 1, cs =>
    match skipWs cs with
    | c :: cs1 =>
      if c = rbrace then some ([], cs1)
      else if c = ',' then do
        let kvc ← parsePair quotes cs1
        let restc ← parseItems quotes fuel kvc.2
        some (kvc.1 :: restc.1, restc.2)
      else none
    | [] => none

/-- Parse a whole flat object literal `\x7b "k" : "v" , ... \x7d` whose string
quotes are drawn from `quotes`, requiring the input to be fully consumed.
This is the fragment of `json.loads` (double quotes) and `ast.literal_eval`
(double or single quotes) that the `--tags` flag of this tool uses: a flat
object with string keys and string values. -/
def parseFlatDict (quotes : List Char) (s : String) :
    Option (List (String × String)) :=
  match skipWs s.data with
  | c :: cs1 =>
    if c = lbrace then
      match skipWs cs1 with
      | c2 :: cs2 =>
        if c2 = rbrace then
          if (skipWs cs2).isEmpty then some [] else none
        else
          match parsePair quotes (c2 :: cs2) with
          | some kvc =>
            match parseItems quotes (s.data.length + 1) kvc.2 with
            | some restc =>
              if (skipWs restc.2).isEmpty then some (kvc.1 :: restc.1) else none
            | none => none
          | none => none
      | [] => none
    else none
  | [] => none

/-- Model of `json.loads` restricted to the flat string-to-string object fragment:
strict JSON accepts only double-quoted strings; the resulting object is a
Python dict (`dictOfPairs`). -/
def jsonLoads (s : String) : Option (List (String × String)) :=
  (parseFlatDict [dquote] s).map dictOfPairs

/-- Model of `ast.literal_eval` restricted to the same fragment: Python literal
syntax accepts single- or double-quoted strings. -/
def literalEval (s : String) : Option (List (String × String)) :=
  (parseFlatDict [dquote, squote] s).map dictOfPairs

/-- Outcome of `parse_tags`: a parsed dict, a handled error
(`typer.Exit(code=1)`), or an unhandled exception escaping the function. -/
inductive ParseOutcome where
  | ok (tags_dict : List (String × String))
  | exitError
  | crashNameError
deriving DecidableEq, Repr

/-- Function `parse_tags` of admin_app.py lines 148-159: try `json.loads`; on failure
try `ast.literal_eval`; if that also fails, print an error and
`raise typer.Exit(code=1)`. -/
def parse_tags_admin (tags : String) : ParseOutcome :=
  match jsonLoads tags with
  | some d => .ok d
  | none =>
    match literalEval tags with
    | some d => .ok d
    | none => .exitError

/-- Function `parse_tags` of client_app.py lines 186-197.  The body is textually the
admin version, but client_app.py never imports `ast`: when the JSON parse
fails, evaluating `ast.literal_eval(tags)` raises `NameError`, which the
`except (ValueError, SyntaxError)` clause does not catch, so the exception
escapes `parse_tags` unhandled. -/
def parse_tags_client (tags : String) : ParseOutcome :=
  match jsonLoads tags with
  | some d => .ok d
  | none => .crashNameError

/-- Function `prompt_for_inference_profile` (admin_app.py lines 123-146): list the
Claude profiles, return `none` when the list is empty or the selection step
fails, else the chosen profile. -/
def prompt_for_inference_profile
    (listResult : Except ClientErr ListResponse) (choice : Option Int) :
    Option ProfileSummary :=
  let profiles := (list_claude_inference_profiles listResult).profiles
  if profiles.isEmpty then none
  else
    match select_from profiles choice with
    | .selected p => some p
    | _ => none

/-- The four placeholder names of the settings template rendered by
`write_claude_settings` (client_app.py lines 168-173). -/
inductive TVar where
  | awsProfileVar
  | anthropicModelVar
  | haikuModelVar
  | awsRegionVar
deriving DecidableEq, Repr

/-- A template is literal text interleaved with placeholders.
Modelled from the spec: `template.settings.json` is not under src/, so the
template document is modelled abstractly as such a piece list, and the
Jinja2 `Template.render` call as verbatim substitution of each placeholder. -/
inductive TPiece where
  | lit (s : String)
  | var (v : TVar)
deriving DecidableEq, Repr

/-- The substitution mapping passed to `template.render` (client_app.py
lines 168-173): `AWS_PROFILE`, `ANTHROPIC_MODEL` := profile ARN,
`ANTHROPIC_DEFAULT_HAIKU_MODEL` := empty string, `AWS_REGION`. -/
def substVar (aws_profile profile_arn region : String) : TVar → String
  | .awsProfileVar => aws_profile
  | .anthropicModelVar => profile_arn
  | .haikuModelVar => ""
  | .awsRegionVar => region

/-- Render the template: literals verbatim, placeholders substituted. -/
def renderTemplate (tmpl : List TPiece) (aws_profile profile_arn region : String) :
    String :=
  String.join (tmpl.map (fun p =>
    match p with
    | .lit s => s
    | .var v => substVar aws_profile profile_arn region v))

/-- The fixed output file written by `write_claude_settings`
(client_app.py line 176), inside the fixed `~/.claude` directory. -/
def settingsFileName : String := "example.settings.json"

/-- Function `write_claude_settings` (client_app.py lines 143-184): render the
template with the three inputs (and the always-empty haiku placeholder) and
write the result with mode "w", i.e. the new file content is the rendered
document regardless of the prior content `prior`. -/
def write_claude_settings (tmpl : List TPiece) (prior : Option String)
    (profile_arn region aws_profile : String) : String :=
  renderTemplate tmpl aws_profile profile_arn region

/-- The single `create_inference_profile` request assembled by
`create_profile` (admin_app.py lines 206-211). -/
structure CreateRequest where
  inferenceProfileName : String
  profileDescription : String
  copyFrom : String
  tagList : List (String × String)
deriving DecidableEq, Repr

/-- Terminal outcome of the admin `create-aip` command.  Every `exit*`
constructor is a `typer.Exit(code=1)` path; `crashNameError` cannot occur in
the admin flow; `createCall r` records that exactly one provider create call
with request `r` was issued. -/
inductive AdminOutcome where
  | exitParseError
  | crashNameError
  | exitEmptyTags
  | exitNoProfile
  | createCall (r : CreateRequest)
deriving DecidableEq, Repr

/-- Function `create_profile` (admin_app.py lines 161-235): parse the tags, reject an
empty dict, build `aws_tags` in dict order, prompt for a Claude profile
(any invalid selection or empty listing yields `none`, hence the
"No profile selected" exit), then issue exactly one create call whose
`modelSource` copies from the selected profile ARN. -/
def create_profile (name tags : String)
    (listResult : Except ClientErr ListResponse) (choice : Option Int) :
    AdminOutcome :=
  match parse_tags_admin tags with
  | .crashNameError => .crashNameError
  | .exitError => .exitParseError
  | .ok tags_dict =>
    if tags_dict.isEmpty then .exitEmptyTags
    else
      let aws_tags := tags_dict
      match prompt_for_inference_profile listResult choice with
      | none => .exitNoProfile
      | some sel =>
        .createCall
          { inferenceProfileName := name
            profileDescription := "Application Inference Profile " ++ name
            copyFrom := sel.inferenceProfileArn
            tagList := aws_tags }

/-- Terminal outcome of the client `setup` command.  `complete` records the
selected profile ARN and the settings-file content written. -/
inductive ClientOutcome where
  | exitParseError
  | crashNameError
  | exitEmptyTags
  | exitNoProfiles
  | exitInvalidChoice
  | exitInvalidInput
  | complete (profile_arn settingsContent : String)
deriving DecidableEq, Repr

/-- Function `client_setup` (client_app.py lines 199-266): parse the tags, reject an
empty dict, find matching application profiles, exit when none match, run
the selection step, prompt for region and AWS profile, and write the
settings file. -/
def client_setup (tags : String)
    (listResult : Except ClientErr ListResponse)
    (fetchTags : String → Except ClientErr (List (String × String)))
    (choice : Option Int) (region aws_profile : String)
    (tmpl : List TPiece) (prior : Option String) : ClientOutcome :=
  match parse_tags_client tags with
  | .exitError => .exitParseError
  | .crashNameError => .crashNameError
  | .ok tags_dict =>
    if tags_dict.isEmpty then .exitEmptyTags
    else
      let profiles :=
        (list_application_inference_profiles listResult fetchTags tags_dict).profiles
      if profiles.isEmpty then .exitNoProfiles
      else
        match select_from profiles choice with
        | .invalidInput => .exitInvalidInput
        | .invalidChoice => .exitInvalidChoice
        | .selected p =>
          .complete p.summary.inferenceProfileArn
            (write_claude_settings tmpl prior p.summary.inferenceProfileArn
              region aws_profile)

/-- The request parameters of a `list_inference_profiles` call. -/
structure ListRequest where
  maxResults : Option Nat
  typeEquals : String
deriving DecidableEq, Repr

/-- The single listing request of admin_app.py line 38:
`list_inference_profiles(maxResults=250, typeEquals="APPLICATION")`. -/
def adminAppListRequest : ListRequest :=
  { maxResults := some 250, typeEquals := "APPLICATION" }

/-- The single listing request of client_app.py line 43:
`list_inference_profiles(typeEquals="APPLICATION")`, with no `maxResults`. -/
def clientAppListRequest : ListRequest :=
  { maxResults := none, typeEquals := "APPLICATION" }

/-- The single listing request of admin_app.py line 80:
`list_inference_profiles(typeEquals="SYSTEM_DEFINED")`. -/
def adminClaudeListRequest : ListRequest :=
  { maxResults := none, typeEquals := "SYSTEM_DEFINED" }

theorem listAppLoop_allOk (tagsOf : String → List (String × String))
    (tag_filters : List (String × String)) (ss : List ProfileSummary) :
    listAppLoop (fun a => .ok (tagsOf a)) tag_filters ss =
      .ok (ss.filterMap (fun s =>
        let t := dictOfPairs (tagsOf s.inferenceProfileArn)
        if matchesTagFilters tag_filters t then
          some { summary := s, tags := t }
        else
          none)) := by
  induction ss with
  | nil => rfl
  | cons s rest ih =>
    simp only [listAppLoop, ih, List.filterMap_cons]
    by_cases h : matchesTagFilters tag_filters (dictOfPairs (tagsOf s.inferenceProfileArn))
    · simp [h]
    · simp [h]

/-- C1: with every per-profile tag fetch answering (`fun a => .ok (tagsOf a)`),
the tag-filter discovery (`list_application_inference_profiles`, identical in
client_app.py lines 28-70 and admin_app.py lines 23-65) returns exactly the
profiles of the listed page whose attached tag dict maps every filter key to
the filter value; extra tags never disqualify, a missing key or a mismatched
value always does. -/
theorem tag_filter_discovery_exact
    (summaries : List ProfileSummary) (tok : Option String)
    (tagsOf : String → List (String × String))
    (tag_filters : List (String × String)) (p : AppProfile) :
    p ∈ (list_application_inference_profiles
          (.ok { inferenceProfileSummaries := summaries, nextToken := tok })
          (fun a => .ok (tagsOf a)) tag_filters).profiles ↔
      p.summary ∈ summaries ∧
        p.tags = dictOfPairs (tagsOf p.summary.inferenceProfileArn) ∧
        ∀ kv ∈ tag_filters, dictLookup p.tags kv.1 = some kv.2 := by
  simp only [list_application_inference_profiles, listAppLoop_allOk]
  rw [List.mem_filterMap]
  constructor
  · rintro ⟨s, hs, hf⟩
    by_cases hm : matchesTagFilters tag_filters
        (dictOfPairs (tagsOf s.inferenceProfileArn))
    · simp only [hm, if_true, Option.some.injEq] at hf
      subst hf
      refine ⟨hs, rfl, ?_⟩
      exact (matchesTagFilters_iff _ _).mp hm
    · simp [hm] at hf
  · rintro ⟨hs, htags, hmatch⟩
    refine ⟨p.summary, hs, ?_⟩
    have hm : matchesTagFilters tag_filters
        (dictOfPairs (tagsOf p.summary.inferenceProfileArn)) = true := by
      rw [← htags]
      exact (matchesTagFilters_iff _ _).mpr hmatch
    simp only [hm, if_pos]
    cases p
    simp_all

theorem profileIdLE_trans (a b c : ProfileSummary) :
    profileIdLE a b → profileIdLE b c → profileIdLE a c := by
  simp only [profileIdLE, decide_eq_true_eq]
  exact le_trans

theorem profileIdLE_total (a b : ProfileSummary) :
    profileIdLE a b || profileIdLE b a := by
  simp only [profileIdLE, Bool.or_eq_true, decide_eq_true_eq]
  exact le_total _ _

theorem isClaudeProfile_iff (p : ProfileSummary) :
    isClaudeProfile p = true ↔
      ("claude".data <:+: (toLowerStr p.inferenceProfileId).data ∧
        ∀ m ∈ legacyMarkers,
          ¬ (m.data <:+: (toLowerStr p.inferenceProfileId).data)) := by
  simp [isClaudeProfile, containsSub]

/-- C3: admin-side Claude discovery (`list_claude_inference_profiles`,
admin_app.py lines 68-96) returns exactly the listed system-defined profiles
whose lowered identifier has `claude` as a substring and has none of the four
fixed exclusion substrings, and the result is sorted ascending by profile
identifier. -/
theorem claude_discovery_exact (summaries : List ProfileSummary)
    (tok : Option String) :
    (∀ p, p ∈ (list_claude_inference_profiles
          (.ok { inferenceProfileSummaries := summaries, nextToken := tok })).profiles ↔
        p ∈ summaries ∧
          "claude".data <:+: (toLowerStr p.inferenceProfileId).data ∧
          ∀ m ∈ legacyMarkers,
            ¬ (m.data <:+: (toLowerStr p.inferenceProfileId).data)) ∧
      (list_claude_inference_profiles
          (.ok { inferenceProfileSummaries := summaries, nextToken := tok })).profiles.Pairwise
        (fun a b => a.inferenceProfileId ≤ b.inferenceProfileId) := by
  constructor
  · intro p
    rw [show (list_claude_inference_profiles
          (.ok { inferenceProfileSummaries := summaries, nextToken := tok })).profiles =
        (summaries.filter isClaudeProfile).mergeSort profileIdLE from rfl]
    rw [List.mem_mergeSort, List.mem_filter, isClaudeProfile_iff]
  · have hs := List.sorted_mergeSort profileIdLE_trans profileIdLE_total
      (summaries.filter isClaudeProfile)
    exact hs.imp (fun h => by simpa [profileIdLE] using h)

/-- C4: the numeric-selection step used by both the admin flow
(admin_app.py lines 137-146, via prompt_for_inference_profile) and the client
flow (client_app.py lines 234-244): a numeric choice c with 1 <= c <= N
selects the item at zero-based index c - 1; a numeric choice outside that
range yields the invalid-choice error branch, and a non-numeric input (the
ValueError of int(), modelled as none) yields the invalid-input error branch;
in both flows each error branch ends in a non-zero exit with no selection
made (prompt_for_inference_profile returns none on any non-numeric input). -/
theorem selection_validation {α : Type} (profiles : List α) (c : Int) :
    (1 ≤ c → c ≤ (profiles.length : Int) →
      ∃ h : (c - 1).toNat < profiles.length,
        select_from profiles (some c) =
          SelectionResult.selected (profiles.get ⟨(c - 1).toNat, h⟩)) ∧
      ((c < 1 ∨ (profiles.length : Int) < c) →
        select_from profiles (some c) = SelectionResult.invalidChoice) ∧
      select_from profiles none = SelectionResult.invalidInput ∧
      ∀ listResult : Except ClientErr ListResponse,
        prompt_for_inference_profile listResult none = none := by
  refine ⟨?_, ?_, rfl, ?_⟩
  · intro h1 h2
    have hb : (c - 1).toNat < profiles.length := by omega
    refine ⟨hb, ?_⟩
    simp [select_from, h1, h2]
  · intro h
    have hb : ¬ (1 ≤ c ∧ c ≤ (profiles.length : Int)) := by omega
    simp [select_from, hb]
  · intro listResult
    unfold prompt_for_inference_profile
    by_cases h : (list_claude_inference_profiles listResult).profiles.isEmpty
    · simp [h]
    · simp [h, select_from]

theorem selection_validation_witness :
    select_from ["a", "b", "c"] (some 2) = SelectionResult.selected "b" ∧
      select_from ["a", "b", "c"] (some 4) = SelectionResult.invalidChoice ∧
      select_from ["a", "b", "c"] (some 0) = SelectionResult.invalidChoice ∧
      select_from (["a", "b", "c"] : List String) none =
        SelectionResult.invalidInput := by
  obtain ⟨hsel, -, -, -⟩ := selection_validation (["a", "b", "c"] : List String) 2
  obtain ⟨h, he⟩ := hsel (by decide) (by decide)
  obtain ⟨-, hc4, -, -⟩ := selection_validation (["a", "b", "c"] : List String) 4
  obtain ⟨-, hc0, hni, -⟩ := selection_validation (["a", "b", "c"] : List String) 0
  refine ⟨?_, hc4 (by decide), hc0 (by decide), hni⟩
  rw [he]
  rfl

/-- Map double quotes to single quotes, to build Python-literal-style inputs. -/
def toSingleQuoted (s : String) : String :=
  String.mk (s.data.map (fun c => if c = dquote then squote else c))

/-- The single-quoted dict-literal input, Python syntax but not valid JSON. -/
def sqTagInput : String := toSingleQuoted "\x7b\"Team\": \"X\"\x7d"

/-- C2: the two parse_tags copies do NOT behave identically.  On the
single-quoted input the strict JSON parse fails in both; admin_app.py then
succeeds through the ast.literal_eval fallback, but client_app.py never
imports ast, so the same input raises an uncaught NameError there instead of
parsing (and instead of the handled both-parses-fail exit).  On an input that
neither parse accepts, the admin copy takes the handled error exit. -/
theorem parse_tags_client_missing_ast :
    jsonLoads sqTagInput = none ∧
      literalEval sqTagInput = some [("Team", "X")] ∧
      parse_tags_admin sqTagInput = ParseOutcome.ok [("Team", "X")] ∧
      parse_tags_client sqTagInput = ParseOutcome.crashNameError ∧
      parse_tags_admin "not json at all" = ParseOutcome.exitError := by
  decide

/-- C5: the settings-rendering step substitutes exactly the credential
profile, the profile ARN and the region into their placeholders, always
substitutes the empty string for the haiku-model placeholder, and the written
file content is the rendered document regardless of any prior content (full
overwrite, no merge). -/
theorem settings_rendering_exact (tmpl : List TPiece)
    (prior prior2 : Option String)
    (profile_arn region aws_profile s1 s2 s3 s4 s5 : String) :
    write_claude_settings tmpl prior profile_arn region aws_profile =
        renderTemplate tmpl aws_profile profile_arn region ∧
      write_claude_settings tmpl prior profile_arn region aws_profile =
        write_claude_settings tmpl prior2 profile_arn region aws_profile ∧
      substVar aws_profile profile_arn region TVar.awsProfileVar = aws_profile ∧
      substVar aws_profile profile_arn region TVar.anthropicModelVar = profile_arn ∧
      substVar aws_profile profile_arn region TVar.haikuModelVar = "" ∧
      substVar aws_profile profile_arn region TVar.awsRegionVar = region ∧
      write_claude_settings
          [TPiece.lit s1, TPiece.var TVar.awsProfileVar, TPiece.lit s2,
            TPiece.var TVar.anthropicModelVar, TPiece.lit s3,
            TPiece.var TVar.haikuModelVar, TPiece.lit s4,
            TPiece.var TVar.awsRegionVar, TPiece.lit s5]
          prior profile_arn region aws_profile =
        s1 ++ aws_profile ++ s2 ++ profile_arn ++ s3 ++ "" ++ s4 ++ region ++ s5 := by
  refine ⟨rfl, rfl, rfl, rfl, rfl, rfl, ?_⟩
  simp [write_claude_settings, renderTemplate, substVar, String.join]

/-- C7: a ClientError from the top-level listing call makes each discovery
function print an error notice and return an empty list rather than raise. -/
theorem listing_failure_degrades (e : ClientErr)
    (fetchTags : String → Except ClientErr (List (String × String)))
    (tag_filters : List (String × String)) :
    (list_application_inference_profiles (.error e) fetchTags tag_filters).profiles
        = [] ∧
      (list_application_inference_profiles (.error e) fetchTags tag_filters).errors
        = ["Error listing application inference profiles: " ++ e.msg] ∧
      (list_claude_inference_profiles (.error e)).profiles = [] ∧
      (list_claude_inference_profiles (.error e)).errors
        = ["Error listing inference profiles: " ++ e.msg] :=
  ⟨rfl, rfl, rfl, rfl⟩

/-- C9: the empty-object tag string parses successfully in both parse_tags
copies, and both command entry points reject the resulting empty dict with
their own post-parse check; the rejection is independent of every provider
input (quantified here), i.e. it happens before any network call. -/
theorem empty_tags_rejected (name : String)
    (listResult listResult2 : Except ClientErr ListResponse)
    (fetchTags : String → Except ClientErr (List (String × String)))
    (choice choice2 : Option Int) (region aws_profile : String)
    (tmpl : List TPiece) (prior : Option String) :
    parse_tags_admin "\x7b\x7d" = ParseOutcome.ok [] ∧
      parse_tags_client "\x7b\x7d" = ParseOutcome.ok [] ∧
      create_profile name "\x7b\x7d" listResult choice = AdminOutcome.exitEmptyTags ∧
      client_setup "\x7b\x7d" listResult2 fetchTags choice2 region aws_profile
          tmpl prior = ClientOutcome.exitEmptyTags := by
  have ha : parse_tags_admin "\x7b\x7d" = ParseOutcome.ok [] := by decide
  have hc : parse_tags_client "\x7b\x7d" = ParseOutcome.ok [] := by decide
  refine ⟨ha, hc, ?_, ?_⟩
  · simp [create_profile, ha]
  · simp [client_setup, hc]

theorem listAppLoop_summary_mem
    (fetchTags : String → Except ClientErr (List (String × String)))
    (tag_filters : List (String × String)) :
    ∀ (ss : List ProfileSummary) (ps : List AppProfile),
      listAppLoop fetchTags tag_filters ss = .ok ps →
        ∀ p ∈ ps, p.summary ∈ ss := by
  intro ss
  induction ss with
  | nil =>
    intro ps h p hp
    simp only [listAppLoop] at h
    cases h
    cases hp
  | cons a rest ih =>
    intro ps h p hp
    simp only [listAppLoop] at h
    cases hfa : fetchTags a.inferenceProfileArn with
    | error e => rw [hfa] at h; cases h
    | ok raw =>
      rw [hfa] at h
      cases hrest : listAppLoop fetchTags tag_filters rest with
      | error e => rw [hrest] at h; cases h
      | ok others =>
        rw [hrest] at h
        by_cases hm : matchesTagFilters tag_filters (dictOfPairs raw)
        · simp only [hm, if_true] at h
          cases h
          rcases List.mem_cons.mp hp with h1 | h1
          · subst h1; exact List.mem_cons_self _ _
          · exact List.mem_cons_of_mem _ (ih _ hrest p h1)
        · simp only [hm, if_false, Bool.false_eq_true] at h
          cases h
          exact List.mem_cons_of_mem _ (ih _ hrest p hp)

/-- C10: neither discovery paginates.  Each function consumes exactly one
listing response: its result is unchanged by the continuation token of the
page, every returned profile comes from the summaries of that single page,
and the admin-side application listing request carries maxResults 250 while
the other two listing requests carry none. -/
theorem single_page_listing (summaries : List ProfileSummary)
    (tok tok2 : Option String)
    (fetchTags : String → Except ClientErr (List (String × String)))
    (tag_filters : List (String × String)) :
    list_application_inference_profiles
          (.ok { inferenceProfileSummaries := summaries, nextToken := tok })
          fetchTags tag_filters =
        list_application_inference_profiles
          (.ok { inferenceProfileSummaries := summaries, nextToken := tok2 })
          fetchTags tag_filters ∧
      (∀ p ∈ (list_application_inference_profiles
            (.ok { inferenceProfileSummaries := summaries, nextToken := tok })
            fetchTags tag_filters).profiles, p.summary ∈ summaries) ∧
      list_claude_inference_profiles
          (.ok { inferenceProfileSummaries := summaries, nextToken := tok }) =
        list_claude_inference_profiles
          (.ok { inferenceProfileSummaries := summaries, nextToken := tok2 }) ∧
      (∀ p ∈ (list_claude_inference_profiles
            (.ok { inferenceProfileSummaries := summaries, nextToken := tok })).profiles,
          p ∈ summaries) ∧
      adminAppListRequest.maxResults = some 250 ∧
      clientAppListRequest.maxResults = none ∧
      adminClaudeListRequest.maxResults = none := by
  refine ⟨rfl, ?_, rfl, ?_, rfl, rfl, rfl⟩
  · intro p hp
    simp only [list_application_inference_profiles] at hp
    cases hloop : listAppLoop fetchTags tag_filters summaries with
    | error e => rw [hloop] at hp; cases hp
    | ok ps =>
      rw [hloop] at hp
      exact listAppLoop_summary_mem fetchTags tag_filters summaries ps hloop p hp
  · intro p hp
    simp only [list_claude_inference_profiles, List.mem_mergeSort] at hp
    exact (List.mem_filter.mp hp).1

theorem listAppLoop_error_of_mem
    (fetchTags : String → Except ClientErr (List (String × String)))
    (tag_filters : List (String × String)) (s : ProfileSummary) (e : ClientErr) :
    ∀ ss : List ProfileSummary, s ∈ ss →
      fetchTags s.inferenceProfileArn = .error e →
        ∃ e2, listAppLoop fetchTags tag_filters ss = .error e2 := by
  intro ss
  induction ss with
  | nil => intro hs; cases hs
  | cons a rest ih =>
    intro hs hf
    rcases List.mem_cons.mp hs with h1 | h1
    · subst h1
      exact ⟨e, by simp [listAppLoop, hf]⟩
    · cases hfa : fetchTags a.inferenceProfileArn with
      | error e2 => exact ⟨e2, by simp [listAppLoop, hfa]⟩
      | ok raw =>
        obtain ⟨e2, he2⟩ := ih h1 hf
        exact ⟨e2, by simp [listAppLoop, hfa, he2]⟩

/-- First concrete summary for the per-item failure scenario. -/
def cSum1 : ProfileSummary :=
  { inferenceProfileId := "p1", inferenceProfileName := "profile-one"
    inferenceProfileArn := "arn-1" }

/-- Second concrete summary for the per-item failure scenario. -/
def cSum2 : ProfileSummary :=
  { inferenceProfileId := "p2", inferenceProfileName := "profile-two"
    inferenceProfileArn := "arn-2" }

/-- Concrete per-profile tag fetch: succeeds on arn-1 with a matching tag,
raises a ClientError on every other resource (in particular on arn-2). -/
def cFetch (a : String) : Except ClientErr (List (String × String)) :=
  if a = "arn-1" then .ok [("Team", "X")] else .error { msg := "AccessDenied" }

/-- C6 counterexample: with two listed profiles, where the tag fetch of the
first succeeds and its tags match the filter while the tag fetch of the
second raises, the listing returns the empty list: the profile whose tags
were fetched successfully is NOT still returned, because the single
try/except around the whole loop catches the per-item error and returns []. -/
theorem per_item_failure_counterexample :
    cFetch cSum1.inferenceProfileArn = Except.ok [("Team", "X")] ∧
      matchesTagFilters [("Team", "X")]
        (dictOfPairs [("Team", "X")]) = true ∧
      cFetch cSum2.inferenceProfileArn = Except.error { msg := "AccessDenied" } ∧
      (list_application_inference_profiles
          (.ok { inferenceProfileSummaries := [cSum1, cSum2], nextToken := none })
          cFetch [("Team", "X")]).profiles = [] := by
  exact ⟨rfl, by decide, rfl, by decide⟩

/-- C6 amended: each listed profile does get an independent per-profile tag
fetch, but a ClientError from any one of those per-item fetches aborts the
whole listing: the surrounding try/except prints a notice and returns the
empty list, so even profiles whose tags were fetched successfully are
dropped from the result. -/
theorem per_item_failure_aborts_listing (summaries : List ProfileSummary)
    (tok : Option String)
    (fetchTags : String → Except ClientErr (List (String × String)))
    (tag_filters : List (String × String)) (s : ProfileSummary) (e : ClientErr)
    (hs : s ∈ summaries)
    (hf : fetchTags s.inferenceProfileArn = .error e) :
    (list_application_inference_profiles
        (.ok { inferenceProfileSummaries := summaries, nextToken := tok })
        fetchTags tag_filters).profiles = [] ∧
      (list_application_inference_profiles
          (.ok { inferenceProfileSummaries := summaries, nextToken := tok })
          fetchTags tag_filters).errors ≠ [] := by
  obtain ⟨e2, he2⟩ :=
    listAppLoop_error_of_mem fetchTags tag_filters s e summaries hs hf
  constructor
  · simp [list_application_inference_profiles, he2]
  · simp [list_application_inference_profiles, he2]

theorem per_item_failure_aborts_listing_witness :
    (list_application_inference_profiles
        (.ok { inferenceProfileSummaries := [cSum1, cSum2], nextToken := none })
        cFetch [("DeveloperId", "d1")]).profiles = [] := by
  have h := per_item_failure_aborts_listing [cSum1, cSum2] none cFetch
    [("DeveloperId", "d1")] cSum2 { msg := "AccessDenied" }
    (by decide) (by rfl)
  exact h.1

/-- Identifier of the mocked Claude 3.7 system-defined profile. -/
def c37Id : String := "us.anthropic.claude-3-7-sonnet-20250219-v1:0"

/-- The mocked Claude 3.7 system-defined profile returned by the provider. -/
def c37Profile : ProfileSummary :=
  { inferenceProfileId := c37Id
    inferenceProfileName := "US Claude 3.7 Sonnet"
    inferenceProfileArn :=
      "arn:aws:bedrock:us-east-1:123456789012:inference-profile/" ++ c37Id }

/-- The literal tags argument of the C8 scenario, as a JSON object string. -/
def adminTagInput : String := "\x7b\"Team\": \"X\", \"DeveloperId\": \"d1\"\x7d"

/-- C8: the admin create-aip flow invoked with name test-profile and the JSON
tag string for Team=X, DeveloperId=d1, against a provider listing exactly one
matching Claude 3.7 profile, with choice 1, issues exactly one create call
(the single createCall outcome), whose modelSource copies from the selected
profile ARN and whose tags are the key/value pair list built from the parsed
dict in insertion order. -/
theorem create_aip_end_to_end :
    create_profile "test-profile" adminTagInput
        (.ok { inferenceProfileSummaries := [c37Profile], nextToken := none })
        (some 1) =
      AdminOutcome.createCall
        { inferenceProfileName := "test-profile"
          profileDescription := "Application Inference Profile test-profile"
          copyFrom := c37Profile.inferenceProfileArn
          tagList := [("Team", "X"), ("DeveloperId", "d1")] } := by
  have hparse : parse_tags_admin adminTagInput =
      ParseOutcome.ok [("Team", "X"), ("DeveloperId", "d1")] := by decide
  have hfil : [c37Profile].filter isClaudeProfile = [c37Profile] := by decide
  have hsel : select_from [c37Profile] (some 1) =
      SelectionResult.selected c37Profile := by decide
  simp [create_profile, hparse, prompt_for_inference_profile,
    list_claude_inference_profiles, hfil, hsel]
